import Mathlib

/-!
Verification development for the device-recording repository.

The definitions below are a shallow embedding of the Python sources:
  - src/utils/arduino_listener.py   (ArduinoListener: parse_alert_message, listen)
  - src/recording/RecordingManager.py (RecordingManager)
  - src/recording/camera_recorder.py  (CameraRecorder)
  - src/recording/VideoDeviceRecorder.py (VideoDeviceRecorder.stop_recording)
  - src/main.py (SecuritySystem callbacks wiring the above together)

Python dicts keyed by strings are modelled as association lists
(List (String × α), insertion ordered, overwrite-on-assign), dict key sets
as List String.  Capture threads run their body to the point where they
either die (start failure) or park in the frame-polling loop; this models
the sequential behaviour in which each spawned thread completes its start
sequence before the next event is processed.  A separate small-step model
(CState below) exposes the interleaving of an in-flight start with a
Deactivate.
-/

namespace DeviceRecording

/-- Character-list prefix test used to build substring search. -/
def leadMatch : List Char → List Char → Bool
  | [], _ => true
  | _ :: _, [] => false
  | a :: as, b :: bs => a == b && leadMatch as bs

/-- Substring occurrence test on character lists (Python `needle in hay`). -/
def occursIn (needle : List Char) : List Char → Bool
  | [] => needle.isEmpty
  | c :: t => leadMatch needle (c :: t) || occursIn needle t

/-- Python `needle in hay` on strings. -/
def strOccurs (needle hay : String) : Bool :=
  occursIn needle.toList hay.toList

/-- ASCII lowercase-to-uppercase table. -/
def upPairs : List (Char × Char) :=
  [('a','A'), ('b','B'), ('c','C'), ('d','D'), ('e','E'), ('f','F'), ('g','G'),
   ('h','H'), ('i','I'), ('j','J'), ('k','K'), ('l','L'), ('m','M'), ('n','N'),
   ('o','O'), ('p','P'), ('q','Q'), ('r','R'), ('s','S'), ('t','T'), ('u','U'),
   ('v','V'), ('w','W'), ('x','X'), ('y','Y'), ('z','Z')]

/-- ASCII uppercase of one character (Python str.upper restricted to the
ASCII alphabet, which is all the classifier compares against). -/
def upChar (c : Char) : Char :=
  ((upPairs.find? (fun p => p.1 == c)).map (fun p => p.2)).getD c

/-- Python message.upper() (ASCII). -/
def strUpper (s : String) : String := ⟨s.toList.map upChar⟩

/-- The fixed zone keyword list of ArduinoListener.parse_alert_message
(src/utils/arduino_listener.py line 19), in its priority order. -/
def ZONES : List String := ["ENTRADA", "SALIDA", "ESTACIONAMIENTO", "BODEGA"]

/-- ArduinoListener.parse_alert_message: uppercases the message and returns
the first zone keyword occurring in it, if any. -/
def parse_alert_message (message : String) : Option String :=
  ZONES.find? (fun sensor => strOccurs sensor (strUpper message))

/-- Typed sensor events (the callbacks fired by ArduinoListener.listen). -/
inductive SEvent where
  | alertEv (zone : String)
  | deactivateEv
  | unknownEv
deriving DecidableEq, Repr

/-- Line classification performed by the body of ArduinoListener.listen
(src/utils/arduino_listener.py lines 45-54): lines containing "ALERTA:"
are tried as alerts first (an unrecognised sensor fires no callback);
otherwise lines containing "alarmaActiva=0" or "DESACTIVADO" deactivate;
anything else fires no callback. -/
def classify (line : String) : SEvent :=
  if strOccurs "ALERTA:" line then
    match parse_alert_message line with
    | some z => .alertEv z
    | none => .unknownEv
  else if strOccurs "alarmaActiva=0" line || strOccurs "DESACTIVADO" line then
    .deactivateEv
  else
    .unknownEv

/-- RecordingManager.start_recording filename sanitisation: spaces and
slashes replaced by underscores. -/
def safeName (name : String) : String :=
  ⟨name.toList.map (fun c =>
    if c == ' ' || c == '/' || c == '\\' then '_' else c)⟩

/-- RecordingManager.start_recording output filename:
safe_name + "_" + timestamp + ".mp4" (line 79). -/
def fileNameOf (name timestamp : String) : String :=
  safeName name ++ "_" ++ timestamp ++ ".mp4"

/-- Association-list lookup (Python dict access). -/
def aGet {α : Type} : List (String × α) → String → Option α
  | [], _ => none
  | (k, v) :: t, key => if k = key then some v else aGet t key

/-- Association-list assignment (Python dict item assignment:
overwrite in place, or append a new binding). -/
def aSet {α : Type} : List (String × α) → String → α → List (String × α)
  | [], key, v => [(key, v)]
  | (k, w) :: t, key, v =>
    if k = key then (key, v) :: t else (k, w) :: aSet t key v

/-- Key-set insertion (Python dict assignment where only the key matters). -/
def addOnce (key : String) (l : List String) : List String :=
  if key ∈ l then l else l ++ [key]

/-- Combined state of RecordingManager, CameraRecorder and the ghost
observations the spec's properties quantify over.

  writers        RecordingManager.writers (dict keys, insertion order)
  config         RecordingManager.recording_config
  captureThreads CameraRecorder.capture_threads, value = thread is alive
  shouldStop     CameraRecorder.should_stop_capture
  activeCaptures CameraRecorder.active_captures (dict keys)
  history        ghost log: one (source, timestamp) entry per successful
                 RecordingManager.start_recording (a session start)
  lastAttempt    ghost log: time of the last processed Alert per zone
                 (the spec's last transition attempt, used for debounce) -/
structure SysState where
  writers : List String
  config : List (String × Bool)
  captureThreads : List (String × Bool)
  shouldStop : List (String × Bool)
  activeCaptures : List String
  history : List (String × String)
  lastAttempt : List (String × Nat)
deriving DecidableEq, Repr

/-- Fresh system (empty dicts, as in the constructors). -/
def initState : SysState := ⟨[], [], [], [], [], [], []⟩

/-- RecordingManager.start_recording (lines 63-96).  wOk models whether
the created VideoWriter opens.  Returns the Python return value and the
new state; a successful start appends the (source, timestamp) session to
the ghost history. -/
def managerStart (name : String) (timestamp : String) (wOk : Bool)
    (s : SysState) : Bool × SysState :=
  if name ∈ s.writers then (false, s)
  else if aGet s.config name = some false then (false, s)
  else if !wOk then (false, s)
  else (true, { s with writers := s.writers ++ [name],
                       history := s.history ++ [(name, timestamp)] })

/-- RecordingManager.stop_recording (lines 112-132): release the writer
and delete the entry; a source with no writer returns False unchanged. -/
def managerStop (name : String) (s : SysState) : Bool × SysState :=
  if name ∈ s.writers then
    (true, { s with writers := s.writers.erase name })
  else (false, s)

/-- RecordingManager.stop_all (lines 134-144): stop every source in a
snapshot of the writer keys. -/
def managerStopAll (s : SysState) : SysState :=
  s.writers.foldl (fun st k => (managerStop k st).2) s

/-- RecordingManager.get_recording_count (line 156). -/
def recordingCount (s : SysState) : Nat := s.writers.length

/-- CameraRecorder._capture_and_record (lines 19-56) run to the point
where the thread either dies (start failure) or parks in the polling
loop.  cOk: the camera opened; fOk: the initial frame was read; wOk: the
VideoWriter opened.  Returns whether the thread stays alive.  Note the
early-return paths after a successful open leave the activeCaptures
entry in place (the deletion at lines 53-54 runs only on the loop exit
path). -/
def captureBody (sensor : String) (cOk fOk wOk : Bool) (timestamp : String)
    (s : SysState) : Bool × SysState :=
  if !cOk then (false, s)
  else
    let s1 := { s with activeCaptures := addOnce sensor s.activeCaptures }
    if !fOk then (false, s1)
    else managerStart sensor timestamp wOk s1

/-- CameraRecorder.is_recording (line 119): the sensor has a live capture
thread. -/
def aliveR (sensor : String) (s : SysState) : Bool :=
  (aGet s.captureThreads sensor).getD false

/-- CameraRecorder.start_recording (lines 58-84): refuse while the
sensor's capture thread is alive; otherwise clear the stop flag, spawn
the capture thread (whose body runs to its parked point in this
sequential model) and register it. -/
def recorderStart (sensor : String) (cOk fOk wOk : Bool) (timestamp : String)
    (s : SysState) : Bool × SysState :=
  if aliveR sensor s then (false, s)
  else
    let s1 := { s with shouldStop := aSet s.shouldStop sensor false }
    let r := captureBody sensor cOk fOk wOk timestamp s1
    (true, { r.2 with captureThreads := aSet r.2.captureThreads sensor r.1 })

/-- CameraRecorder.stop_all_recordings (lines 86-115): do nothing when no
capture threads are registered; otherwise flag every registered sensor,
join the threads (a parked thread sees its flag within the 2-second join,
releases its capture and deletes its activeCaptures entry), run
RecordingManager.stop_all, then clear all three dicts. -/
def recorderStopAll (s : SysState) : SysState :=
  if s.captureThreads = [] then s
  else
    let flagged := { s with
      shouldStop := s.captureThreads.foldl
        (fun m (p : String × Bool) => aSet m p.1 true) s.shouldStop }
    let joined := { flagged with
      activeCaptures := flagged.captureThreads.foldl
        (fun ac (p : String × Bool) => if p.2 then ac.erase p.1 else ac)
        flagged.activeCaptures,
      captureThreads := flagged.captureThreads.map
        (fun (p : String × Bool) => (p.1, false)) }
    let stopped := managerStopAll joined
    { stopped with captureThreads := [], shouldStop := [], activeCaptures := [] }

/-- Parameters of one Alert delivery: arrival time, environment outcomes
for the camera open / first frame read / writer open, and the start
timestamp string the manager would format. -/
structure AlertEnv where
  t : Nat
  camOk : Bool
  frameOk : Bool
  writerOk : Bool
  ts : String
deriving DecidableEq, Repr

/-- The operations a trace may perform against the system. -/
inductive Ev where
  | alert (zone : String) (env : AlertEnv)
  | deactivate
  | stopZone (zone : String)
  | configure (zone : String) (record : Bool)
deriving DecidableEq, Repr

/-- One orchestrator step.  alert is SecuritySystem._on_sensor_alert
(src/main.py lines 99-113): unconfigured sensors are ignored, configured
ones record the attempt time (ghost) and call CameraRecorder.
deactivate is SecuritySystem._on_system_deactivation (line 115).
stopZone is a direct RecordingManager.stop_recording call and configure
a RecordingManager.configure_source call. -/
def step (zones : List String) (s : SysState) : Ev → SysState
  | .alert z env =>
    if z ∈ zones then
      let s1 := { s with lastAttempt := aSet s.lastAttempt z env.t }
      (recorderStart z env.camOk env.frameOk env.writerOk env.ts s1).2
    else s
  | .deactivate => recorderStopAll s
  | .stopZone z => (managerStop z s).2
  | .configure z b => { s with config := aSet s.config z b }

/-- Run a trace from the fresh system. -/
def run (zones : List String) (tr : List Ev) : SysState :=
  tr.foldl (step zones) initState

/-- Run a trace from an arbitrary state. -/
def runFrom (zones : List String) (s : SysState) (tr : List Ev) : SysState :=
  tr.foldl (step zones) s

/-- Dispatch of one classified line, as the listen loop callbacks do:
an alert event goes through _on_sensor_alert, a deactivation through
_on_system_deactivation, and an unknown line fires no callback. -/
def dispatchEvent (zones : List String) (env : AlertEnv) (s : SysState) :
    SEvent → SysState
  | .alertEv z => step zones s (.alert z env)
  | .deactivateEv => step zones s .deactivate
  | .unknownEv => s

/-- What one iteration of ArduinoListener.listen receives from the
serial transport: a framed line, a serial.SerialException, or any other
exception raised inside the loop body. -/
inductive RxItem where
  | line (s : String)
  | serialErr
  | otherErr
deriving DecidableEq, Repr

/-- How the listen loop can end.  raisedTransport would be the loop
terminating by propagating a transport error to its caller. -/
inductive Outcome where
  | ranOut
  | serialBreak
  | raisedTransport
deriving DecidableEq, Repr

/-- ArduinoListener.listen (lines 37-64) over a finite stream of reads:
lines are classified and fire their callback; a SerialException breaks
the loop (it returns normally, no reconnection, nothing raised); any
other exception is caught and the loop continues. -/
def listenModel : List RxItem → List SEvent × Outcome
  | [] => ([], .ranOut)
  | .line l :: rest =>
    let r := listenModel rest
    match classify l with
    | .unknownEv => r
    | e => (e :: r.1, r.2)
  | .serialErr :: _ => ([], .serialBreak)
  | .otherErr :: rest => listenModel rest

/-- Behaviour of one encoder process under the stop protocol: does it
exit within the 10-second wait after the sentinel, and does it exit
within the 5-second wait after terminate. -/
structure ProcB where
  exitsOnQ : Bool
  exitsOnTerm : Bool
deriving DecidableEq, Repr

/-- VideoDeviceRecorder session state (is_recording flag and the
subprocess handle). -/
structure VState where
  recFlag : Bool
  proc : Option ProcB
deriving DecidableEq, Repr

/-- The externally visible actions VideoDeviceRecorder.stop_recording
performs, in order. -/
inductive StopAct where
  | sendSentinel
  | waitSecs (n : Nat)
  | termProc
  | warnForce
  | logStopEvent
deriving DecidableEq, Repr

/-- Result of VideoDeviceRecorder.stop_recording: the Python return
value, or the TimeoutExpired of the second wait propagating out of the
except-block (sibling except clauses do not catch it). -/
inductive StopOutcome where
  | returned (b : Bool)
  | raisedTimeout
deriving DecidableEq, Repr

/-- VideoDeviceRecorder.stop_recording (lines 148-179): refuse when not
recording; write the sentinel and wait up to 10 s; on timeout log the
degradation, terminate and wait up to 5 s; both the graceful and the
forced path clear the state and return True. -/
def vStop (st : VState) : StopOutcome × VState × List StopAct :=
  match st.proc with
  | none => (.returned false, st, [])
  | some p =>
    if !st.recFlag then (.returned false, st, [])
    else if p.exitsOnQ then
      (.returned true, ⟨false, none⟩,
        [.sendSentinel, .waitSecs 10, .logStopEvent])
    else if p.exitsOnTerm then
      (.returned true, ⟨false, none⟩,
        [.sendSentinel, .waitSecs 10, .warnForce, .termProc, .waitSecs 5,
         .logStopEvent])
    else
      (.raisedTimeout, st,
        [.sendSentinel, .waitSecs 10, .warnForce, .termProc, .waitSecs 5])

/-- Program points of a CameraRecorder._capture_and_record thread in the
interleaved model. -/
inductive Phase where
  | openingCam
  | readingFrame
  | startingWriter
  | polling
  | done
deriving DecidableEq, Repr

/-- One spawned capture thread: its sensor, the environment outcomes its
start sequence will see, and its current program point. -/
structure CTask where
  sensor : String
  camOk : Bool
  frameOk : Bool
  writerOk : Bool
  phase : Phase
deriving DecidableEq, Repr

/-- Interleaved-model state: the same registries as SysState plus the
set of spawned threads (alive iff phase is not done).  captureThreads
maps a sensor to the index of its thread object in tasks. -/
structure CState where
  writers : List String
  captureThreads : List (String × Nat)
  shouldStop : List (String × Bool)
  activeCaptures : List String
  tasks : List CTask
deriving DecidableEq, Repr

/-- Fresh interleaved system. -/
def cInit : CState := ⟨[], [], [], [], []⟩

/-- Replace the phase of task i. -/
def setPhase (tasks : List CTask) (i : Nat) (ph : Phase) : List CTask :=
  match tasks.get? i with
  | some tk => tasks.set i { tk with phase := ph }
  | none => tasks

/-- CameraRecorder.start_recording in the interleaved model: refuse while
the registered thread is alive, otherwise clear the stop flag and spawn
a new thread at its first program point. -/
def cAlert (z : String) (cOk fOk wOk : Bool) (s : CState) : CState :=
  let alive : Bool :=
    match aGet s.captureThreads z with
    | some i =>
      match s.tasks.get? i with
      | some tk => match tk.phase with | .done => false | _ => true
      | none => false
    | none => false
  if alive then s
  else
    { s with shouldStop := aSet s.shouldStop z false,
             tasks := s.tasks ++ [⟨z, cOk, fOk, wOk, .openingCam⟩],
             captureThreads := aSet s.captureThreads z s.tasks.length }

/-- One interleaved step of capture thread i, following the statement
order of _capture_and_record: open the camera (registering the capture
handle on success), read the initial frame, call
RecordingManager.start_recording (membership check and insert are one
dict operation), then poll the stop flag each loop iteration, releasing
and deregistering on exit. -/
def cTaskStep (i : Nat) (s : CState) : CState :=
  match s.tasks.get? i with
  | none => s
  | some tk =>
    match tk.phase with
    | .done => s
    | .openingCam =>
      if tk.camOk then
        { s with tasks := setPhase s.tasks i .readingFrame,
                 activeCaptures := addOnce tk.sensor s.activeCaptures }
      else { s with tasks := setPhase s.tasks i .done }
    | .readingFrame =>
      if tk.frameOk then { s with tasks := setPhase s.tasks i .startingWriter }
      else { s with tasks := setPhase s.tasks i .done }
    | .startingWriter =>
      if tk.sensor ∈ s.writers || !tk.writerOk then
        { s with tasks := setPhase s.tasks i .done }
      else
        { s with writers := s.writers ++ [tk.sensor],
                 tasks := setPhase s.tasks i .polling }
    | .polling =>
      if (aGet s.shouldStop tk.sensor).getD false then
        { s with tasks := setPhase s.tasks i .done,
                 activeCaptures := s.activeCaptures.erase tk.sensor }
      else s

/-- CameraRecorder.stop_all_recordings in the interleaved model, for the
timing in which every thread still in its start sequence needs longer
than the 2-second join timeout (a slow camera open), while parked
polling threads exit within the join: flag all registered sensors, let
flagged polling threads exit, run RecordingManager.stop_all, then clear
the three dicts.  Threads still in their start sequence survive and the
flags they would later poll are cleared. -/
def cDeactivate (s : CState) : CState :=
  if s.captureThreads = [] then s
  else
    let flagged := { s with
      shouldStop := s.captureThreads.foldl
        (fun m (p : String × Nat) => aSet m p.1 true) s.shouldStop }
    let joinOne := fun (acc : List CTask × List String) (tk : CTask) =>
      if tk.phase = .polling ∧ (aGet flagged.shouldStop tk.sensor).getD false then
        (acc.1 ++ [{ tk with phase := .done }], acc.2.erase tk.sensor)
      else (acc.1 ++ [tk], acc.2)
    let joined :=
      let r := flagged.tasks.foldl joinOne ([], flagged.activeCaptures)
      { flagged with tasks := r.1, activeCaptures := r.2 }
    let stopped := { joined with
      writers := joined.writers.foldl (fun w k => w.erase k) joined.writers }
    { stopped with captureThreads := [], shouldStop := [], activeCaptures := [] }

/-! Helper lemmas about the association-list operations and the
orchestrator step, shared by the claim theorems. -/

lemma aGet_aSet_self {α : Type} (l : List (String × α)) (k : String) (v : α) :
    aGet (aSet l k v) k = some v := by
  induction l with
  | nil => simp [aSet, aGet]
  | cons p t ih =>
    obtain ⟨k', w⟩ := p
    by_cases h : k' = k
    · subst h; simp [aSet, aGet]
    · simp [aSet, aGet, h, ih]

lemma aGet_aSet_ne {α : Type} (l : List (String × α)) (k k' : String) (v : α)
    (h : k ≠ k') : aGet (aSet l k v) k' = aGet l k' := by
  induction l with
  | nil => simp [aSet, aGet, h]
  | cons p t ih =>
    obtain ⟨k0, w⟩ := p
    by_cases h0 : k0 = k
    · subst h0; simp [aSet, aGet, h]
    · by_cases h1 : k0 = k'
      · subst h1; simp [aSet, aGet, h0, ih]
      · simp [aSet, aGet, h0, h1, ih]

lemma aSet_ne_nil {α : Type} (l : List (String × α)) (k : String) (v : α) :
    aSet l k v ≠ [] := by
  cases l with
  | nil => simp [aSet]
  | cons p t =>
    obtain ⟨k', w⟩ := p
    by_cases h : k' = k <;> simp [aSet, h]

lemma mem_addOnce_self (k : String) (l : List String) : k ∈ addOnce k l := by
  unfold addOnce
  by_cases h : k ∈ l <;> simp [h]

/-- Folding RecordingManager.stop_recording over a snapshot of the
writer keys empties the writers dict. -/
lemma foldStop_writers : ∀ (l : List String) (s : SysState), s.writers = l →
    (List.foldl (fun st k => (managerStop k st).2) s l).writers = [] := by
  intro l
  induction l with
  | nil => intro s h; simpa using h
  | cons k t ih =>
    intro s h
    have hk : k ∈ s.writers := by rw [h]; exact List.mem_cons_self k t
    have hstep : (managerStop k s).2.writers = t := by
      simp [managerStop, hk, h, List.erase_cons_head]
    rw [List.foldl_cons]
    exact ih _ hstep

lemma managerStopAll_writers (s : SysState) : (managerStopAll s).writers = [] :=
  foldStop_writers s.writers s rfl

lemma managerStop_writers_subset (n : String) (s : SysState) (z : String)
    (h : z ∈ (managerStop n s).2.writers) : z ∈ s.writers := by
  unfold managerStop at h
  by_cases hn : n ∈ s.writers
  · simp [hn] at h
    exact List.mem_of_mem_erase h
  · simpa [hn] using h

/-- The conditional registry invariant: whenever CameraRecorder has no
registered capture threads, the writer, stop-flag and capture-handle
dicts are empty as well. -/
def CInv (s : SysState) : Prop :=
  s.captureThreads = [] →
    s.writers = [] ∧ s.shouldStop = [] ∧ s.activeCaptures = []

lemma cinv_init : CInv initState := by
  intro _; exact ⟨rfl, rfl, rfl⟩

lemma recorderStopAll_eq_of_nil (s : SysState) (h : s.captureThreads = []) :
    recorderStopAll s = s := by
  simp [recorderStopAll, h]

lemma recorderStopAll_fields (s : SysState) (h : s.captureThreads ≠ []) :
    (recorderStopAll s).writers = [] ∧
    (recorderStopAll s).captureThreads = [] ∧
    (recorderStopAll s).shouldStop = [] ∧
    (recorderStopAll s).activeCaptures = [] := by
  unfold recorderStopAll
  rw [if_neg h]
  refine ⟨?_, rfl, rfl, rfl⟩
  exact managerStopAll_writers _

lemma stopAll_empties (s : SysState) (hinv : CInv s) :
    (recorderStopAll s).writers = [] ∧
    (recorderStopAll s).captureThreads = [] ∧
    (recorderStopAll s).shouldStop = [] ∧
    (recorderStopAll s).activeCaptures = [] := by
  by_cases h : s.captureThreads = []
  · rw [recorderStopAll_eq_of_nil s h]
    obtain ⟨h1, h2, h3⟩ := hinv h
    exact ⟨h1, h, h2, h3⟩
  · exact recorderStopAll_fields s h

lemma cinv_step (zones : List String) (s : SysState) (e : Ev)
    (hinv : CInv s) : CInv (step zones s e) := by
  cases e with
  | alert z env =>
    by_cases hz : z ∈ zones
    · intro hct
      exfalso
      simp only [step, if_pos hz] at hct
      unfold recorderStart at hct
      by_cases ha : aliveR z { s with lastAttempt := aSet s.lastAttempt z env.t }
      · simp only [if_pos ha] at hct
        have : aGet s.captureThreads z = some true := by
          simpa [aliveR, Option.getD_eq_iff] using ha
        rw [hct] at this
        simp [aGet] at this
      · simp only [if_neg ha] at hct
        exact aSet_ne_nil _ _ _ hct
    · simpa [step, hz] using hinv
  | deactivate =>
    by_cases h : s.captureThreads = []
    · simpa [step, recorderStopAll_eq_of_nil s h] using hinv
    · intro _
      obtain ⟨h1, _, h3, h4⟩ := recorderStopAll_fields s h
      exact ⟨h1, h3, h4⟩
  | stopZone z =>
    intro hct
    have hct' : s.captureThreads = [] := by
      by_cases hz : z ∈ s.writers <;> simpa [step, managerStop, hz] using hct
    obtain ⟨h1, h2, h3⟩ := hinv hct'
    have hz : z ∉ s.writers := by simp [h1]
    simp [step, managerStop, hz, h1, h2, h3]
  | configure z b =>
    intro hct
    exact hinv (by simpa [step] using hct)

lemma cinv_runFrom (zones : List String) : ∀ (tr : List Ev) (s : SysState),
    CInv s → CInv (runFrom zones s tr) := by
  intro tr
  induction tr with
  | nil => intro s h; exact h
  | cons e t ih =>
    intro s h
    exact ih _ (cinv_step zones s e h)

lemma cinv_run (zones : List String) (tr : List Ev) : CInv (run zones tr) :=
  cinv_runFrom zones tr initState cinv_init

/-- RecordingManager.start_recording either refuses (writers unchanged)
or registers exactly the new source, and only when it was absent. -/
lemma managerStart_writers (n ts : String) (wOk : Bool) (s : SysState) :
    (managerStart n ts wOk s).2.writers = s.writers ∨
    ((managerStart n ts wOk s).2.writers = s.writers ++ [n] ∧ n ∉ s.writers) := by
  unfold managerStart
  by_cases h1 : n ∈ s.writers
  · simp [h1]
  · by_cases h2 : aGet s.config n = some false
    · simp [h1, h2]
    · cases wOk with
      | false => simp [h1, h2]
      | true => simp [h1, h2]

lemma captureBody_writers (n : String) (cOk fOk wOk : Bool) (ts : String)
    (s : SysState) :
    (captureBody n cOk fOk wOk ts s).2.writers = s.writers ∨
    ((captureBody n cOk fOk wOk ts s).2.writers = s.writers ++ [n] ∧
      n ∉ s.writers) := by
  unfold captureBody
  cases cOk with
  | false => simp
  | true =>
    cases fOk with
    | false => simp
    | true =>
      simpa using managerStart_writers n ts wOk
        { s with activeCaptures := addOnce n s.activeCaptures }

lemma nodup_step (zones : List String) (s : SysState) (e : Ev)
    (h : s.writers.Nodup) : (step zones s e).writers.Nodup := by
  cases e with
  | alert z env =>
    by_cases hz : z ∈ zones
    · simp only [step, if_pos hz]
      set s1 : SysState := { s with lastAttempt := aSet s.lastAttempt z env.t }
      unfold recorderStart
      by_cases ha : aliveR z s1
      · simpa [if_pos ha] using h
      · simp only [if_neg ha]
        set s2 : SysState := { s1 with shouldStop := aSet s1.shouldStop z false }
          with hs2
        have h2 : s2.writers.Nodup := h
        show ((captureBody z env.camOk env.frameOk env.writerOk env.ts
          s2).2.writers).Nodup
        rcases captureBody_writers z env.camOk env.frameOk env.writerOk env.ts s2
          with hw | ⟨hw, hnm⟩
        · rw [hw]; exact h2
        · rw [hw]
          simp only [List.nodup_append]
          refine ⟨h2, List.nodup_singleton z, ?_⟩
          intro a hmemw hmem1
          simp only [List.mem_singleton] at hmem1
          subst hmem1
          exact hnm hmemw
    · simpa [step, hz] using h
  | deactivate =>
    by_cases hct : s.captureThreads = []
    · simpa [step, recorderStopAll_eq_of_nil s hct] using h
    · have := (recorderStopAll_fields s hct).1
      simp only [step]
      rw [this]
      exact List.nodup_nil
  | stopZone z =>
    by_cases hz : z ∈ s.writers
    · simpa [step, managerStop, hz] using List.Nodup.erase z h
    · simpa [step, managerStop, hz] using h
  | configure z b => simpa [step] using h

lemma nodup_runFrom (zones : List String) : ∀ (tr : List Ev) (s : SysState),
    s.writers.Nodup → (runFrom zones s tr).writers.Nodup := by
  intro tr
  induction tr with
  | nil => intro s h; exact h
  | cons e t ih => intro s h; exact ih _ (nodup_step zones s e h)

/-- An Alert for a zone whose capture thread is alive changes nothing
but the ghost last-attempt time. -/
lemma alert_alive_noop (zones : List String) (s : SysState) (z : String)
    (env : AlertEnv) (hz : z ∈ zones) (ha : aliveR z s = true) :
    step zones s (.alert z env) =
      { s with lastAttempt := aSet s.lastAttempt z env.t } := by
  have ha' : aliveR z { s with lastAttempt := aSet s.lastAttempt z env.t } = true := ha
  simp [step, hz, recorderStart, ha']

/-- A successful Alert from an idle zone registers exactly one writer,
one capture thread, one capture handle and one session-history entry. -/
lemma alert_success (zones : List String) (s : SysState) (z : String)
    (env : AlertEnv) (hz : z ∈ zones) (hidle : aliveR z s = false)
    (hw : z ∉ s.writers) (hcfg : aGet s.config z ≠ some false)
    (hc : env.camOk = true) (hf : env.frameOk = true)
    (hwo : env.writerOk = true) :
    step zones s (.alert z env) =
      { s with writers := s.writers ++ [z],
               history := s.history ++ [(z, env.ts)],
               activeCaptures := addOnce z s.activeCaptures,
               shouldStop := aSet s.shouldStop z false,
               captureThreads := aSet s.captureThreads z true,
               lastAttempt := aSet s.lastAttempt z env.t } := by
  have hidle' : aliveR z { s with lastAttempt := aSet s.lastAttempt z env.t }
      = false := hidle
  simp [step, hz, recorderStart, hidle', captureBody, managerStart,
    hc, hf, hwo, hw, hcfg]

lemma managerStop_not_mem (z : String) (s : SysState) (h : z ∉ s.writers) :
    managerStop z s = (false, s) := by
  simp [managerStop, h]

/-- Any number of further Alerts for a zone whose capture thread is
alive leave the writers, session history and capture-thread registries
untouched. -/
lemma dup_alerts_noop (zones : List String) (z : String) (hz : z ∈ zones) :
    ∀ (ps : List AlertEnv) (s : SysState), aliveR z s = true →
      (runFrom zones s (ps.map (fun e => Ev.alert z e))).writers = s.writers ∧
      (runFrom zones s (ps.map (fun e => Ev.alert z e))).history = s.history ∧
      (runFrom zones s (ps.map (fun e => Ev.alert z e))).captureThreads
        = s.captureThreads := by
  intro ps
  induction ps with
  | nil => intro s _; exact ⟨rfl, rfl, rfl⟩
  | cons e t ih =>
    intro s ha
    have hstep := alert_alive_noop zones s z e hz ha
    have ha2 : aliveR z { s with lastAttempt := aSet s.lastAttempt z e.t }
        = true := ha
    have := ih { s with lastAttempt := aSet s.lastAttempt z e.t } ha2
    simpa [runFrom, hstep] using this

/-- C1.  At most one recording session per zone: (a)
RecordingManager.start_recording returns False and leaves the state
unchanged when a writer for the source is already registered; (b)
CameraRecorder.start_recording returns False and leaves the state
unchanged while the zone's capture thread is alive; (c) consequently no
sequence of Alert / stop / deactivate / configure operations ever yields
two writer registrations for one zone (every reachable writers registry
counts each zone at most once). -/
theorem c1_at_most_one_session_per_zone :
    (∀ (s : SysState) (z ts : String) (wOk : Bool), z ∈ s.writers →
      managerStart z ts wOk s = (false, s)) ∧
    (∀ (s : SysState) (z : String) (cOk fOk wOk : Bool) (ts : String),
      aliveR z s = true → recorderStart z cOk fOk wOk ts s = (false, s)) ∧
    (∀ (zones : List String) (tr : List Ev) (z : String),
      List.count z (run zones tr).writers ≤ 1) := by
  refine ⟨?_, ?_, ?_⟩
  · intro s z ts wOk h
    simp [managerStart, h]
  · intro s z cOk fOk wOk ts h
    simp [recorderStart, h]
  · intro zones tr z
    have hn : (run zones tr).writers.Nodup :=
      nodup_runFrom zones tr initState List.nodup_nil
    exact List.nodup_iff_count_le_one.1 hn z

/-- Witness for C1 at a concrete reachable state with an active session
for ENTRADA. -/
theorem c1_witness :
    ("ENTRADA" ∈ (run ["ENTRADA"]
        [.alert "ENTRADA" ⟨0, true, true, true, "t0"⟩]).writers ∧
      aliveR "ENTRADA" (run ["ENTRADA"]
        [.alert "ENTRADA" ⟨0, true, true, true, "t0"⟩]) = true) ∧
    managerStart "ENTRADA" "t1" true
        (run ["ENTRADA"] [.alert "ENTRADA" ⟨0, true, true, true, "t0"⟩]) =
      (false, run ["ENTRADA"] [.alert "ENTRADA" ⟨0, true, true, true, "t0"⟩]) ∧
    recorderStart "ENTRADA" true true true "t1"
        (run ["ENTRADA"] [.alert "ENTRADA" ⟨0, true, true, true, "t0"⟩]) =
      (false, run ["ENTRADA"] [.alert "ENTRADA" ⟨0, true, true, true, "t0"⟩]) ∧
    List.count "ENTRADA" (run ["ENTRADA"]
        [.alert "ENTRADA" ⟨0, true, true, true, "t0"⟩]).writers ≤ 1 :=
  ⟨⟨by decide, by decide⟩,
    c1_at_most_one_session_per_zone.1 _ _ _ _ (by decide),
    c1_at_most_one_session_per_zone.2.1 _ _ _ _ _ _ (by decide),
    c1_at_most_one_session_per_zone.2.2 _ _ _⟩

/-- C2 counterexample.  The code has no time-based debounce: an Alert
for ENTRADA at time 0 whose start fails (camera did not open) leaves the
zone inactive with last transition attempt at time 0; a second Alert for
ENTRADA at time 1 — one second later, inside the claimed default
2-second debounce window — is not a no-op: it registers a writer,
changing the registry. -/
theorem c2_counterexample :
    aGet (run ["ENTRADA"]
        [.alert "ENTRADA" ⟨0, false, true, true, "a"⟩]).lastAttempt "ENTRADA"
      = some 0 ∧
    aliveR "ENTRADA" (run ["ENTRADA"]
        [.alert "ENTRADA" ⟨0, false, true, true, "a"⟩]) = false ∧
    (1 : Nat) - 0 < 2 ∧
    (run ["ENTRADA"]
        [.alert "ENTRADA" ⟨0, false, true, true, "a"⟩,
         .alert "ENTRADA" ⟨1, true, true, true, "b"⟩]).writers = ["ENTRADA"] ∧
    (run ["ENTRADA"]
        [.alert "ENTRADA" ⟨0, false, true, true, "a"⟩]).writers = [] := by
  refine ⟨by decide, by decide, by decide, by decide, by decide⟩

/-- C2 as amended.  Duplicate suppression is purely state-based: from an
idle, unconfigured-for-skip zone, one successful Alert followed by any
number of further Alerts for the same zone (arriving while its capture
thread is alive) yields exactly one session start — the history grows by
exactly one entry and the writers registry by exactly one name — and
every duplicate leaves the registries untouched. -/
theorem c2_amended_state_based_idempotence (zones : List String)
    (s : SysState) (z : String) (env : AlertEnv) (ps : List AlertEnv)
    (hz : z ∈ zones) (hidle : aliveR z s = false) (hw : z ∉ s.writers)
    (hcfg : aGet s.config z ≠ some false) (hc : env.camOk = true)
    (hf : env.frameOk = true) (hwo : env.writerOk = true) :
    (runFrom zones s
        (Ev.alert z env :: ps.map (fun e => Ev.alert z e))).history
      = s.history ++ [(z, env.ts)] ∧
    (runFrom zones s
        (Ev.alert z env :: ps.map (fun e => Ev.alert z e))).writers
      = s.writers ++ [z] ∧
    aliveR z (runFrom zones s
        (Ev.alert z env :: ps.map (fun e => Ev.alert z e))) = true := by
  have hfirst := alert_success zones s z env hz hidle hw hcfg hc hf hwo
  have hstep : runFrom zones s (Ev.alert z env :: ps.map (fun e => Ev.alert z e))
      = runFrom zones (step zones s (.alert z env))
          (ps.map (fun e => Ev.alert z e)) := rfl
  rw [hstep, hfirst]
  set s1 : SysState :=
    { s with writers := s.writers ++ [z],
             history := s.history ++ [(z, env.ts)],
             activeCaptures := addOnce z s.activeCaptures,
             shouldStop := aSet s.shouldStop z false,
             captureThreads := aSet s.captureThreads z true,
             lastAttempt := aSet s.lastAttempt z env.t } with hs1
  have ha1 : aliveR z s1 = true := by
    simp [aliveR, hs1, aGet_aSet_self]
  obtain ⟨hwr, hhi, hct⟩ := dup_alerts_noop zones z hz ps s1 ha1
  refine ⟨by rw [hhi], by rw [hwr], ?_⟩
  show (aGet (runFrom zones s1
    (ps.map (fun e => Ev.alert z e))).captureThreads z).getD false = true
  rw [hct]
  exact ha1

/-- Witness for C2 as amended: one successful Alert for ENTRADA plus one
duplicate produce exactly one session start. -/
theorem c2_amended_witness :
    ("ENTRADA" ∈ ["ENTRADA"] ∧
      aliveR "ENTRADA" initState = false ∧
      "ENTRADA" ∉ initState.writers ∧
      aGet initState.config "ENTRADA" ≠ some false) ∧
    (runFrom ["ENTRADA"] initState
        (Ev.alert "ENTRADA" ⟨0, true, true, true, "t0"⟩ ::
          ([⟨1, true, true, true, "t1"⟩] : List AlertEnv).map
            (fun e => Ev.alert "ENTRADA" e))).history
      = initState.history ++ [("ENTRADA", "t0")] ∧
    (runFrom ["ENTRADA"] initState
        (Ev.alert "ENTRADA" ⟨0, true, true, true, "t0"⟩ ::
          ([⟨1, true, true, true, "t1"⟩] : List AlertEnv).map
            (fun e => Ev.alert "ENTRADA" e))).writers
      = initState.writers ++ ["ENTRADA"] :=
  ⟨⟨by decide, by decide, by decide, by decide⟩,
    (c2_amended_state_based_idempotence ["ENTRADA"] initState "ENTRADA"
      ⟨0, true, true, true, "t0"⟩ [⟨1, true, true, true, "t1"⟩]
      (by decide) (by decide) (by decide) (by decide)
      (by decide) (by decide) (by decide)).1,
    (c2_amended_state_based_idempotence ["ENTRADA"] initState "ENTRADA"
      ⟨0, true, true, true, "t0"⟩ [⟨1, true, true, true, "t1"⟩]
      (by decide) (by decide) (by decide) (by decide)
      (by decide) (by decide) (by decide)).2.1⟩

/-- C3.  Processing a single Deactivate event from any reachable state
empties every registry: no writer, no capture thread, no stop flag and
no capture handle remains, and get_recording_count returns 0. -/
theorem c3_global_stop (zones : List String) (tr : List Ev) :
    (step zones (run zones tr) Ev.deactivate).writers = [] ∧
    (step zones (run zones tr) Ev.deactivate).captureThreads = [] ∧
    (step zones (run zones tr) Ev.deactivate).shouldStop = [] ∧
    (step zones (run zones tr) Ev.deactivate).activeCaptures = [] ∧
    recordingCount (step zones (run zones tr) Ev.deactivate) = 0 := by
  have hinv : CInv (run zones tr) := cinv_run zones tr
  have h := stopAll_empties (run zones tr) hinv
  have hs : step zones (run zones tr) Ev.deactivate
      = recorderStopAll (run zones tr) := rfl
  rw [hs]
  exact ⟨h.1, h.2.1, h.2.2.1, h.2.2.2, by simp [recordingCount, h.1]⟩

/-- C10.  Stopping a source with no registered writer returns False and
leaves the whole state unchanged, and stop is idempotent at the public
interface: a second stop for the same source always returns False and
changes nothing. -/
theorem c10_stop_without_writer_noop :
    (∀ (s : SysState) (z : String), z ∉ s.writers →
      managerStop z s = (false, s)) ∧
    (∀ (s : SysState) (z : String), s.writers.Nodup →
      managerStop z (managerStop z s).2 = (false, (managerStop z s).2)) := by
  constructor
  · intro s z h
    exact managerStop_not_mem z s h
  · intro s z hn
    by_cases h : z ∈ s.writers
    · have h2 : z ∉ (managerStop z s).2.writers := by
        simp only [managerStop, if_pos h]
        intro hmem
        exact ((List.Nodup.mem_erase_iff hn).1 hmem).1 rfl
      exact managerStop_not_mem z _ h2
    · have h2 : z ∉ (managerStop z s).2.writers := by
        rw [managerStop_not_mem z s h]
        exact h
      exact managerStop_not_mem z _ h2

/-- Witness for C10 at a concrete state holding a writer for SALIDA but
none for ENTRADA. -/
theorem c10_witness :
    ("ENTRADA" ∉ (run ["SALIDA"]
        [.alert "SALIDA" ⟨0, true, true, true, "t0"⟩]).writers ∧
      (run ["SALIDA"]
        [.alert "SALIDA" ⟨0, true, true, true, "t0"⟩]).writers.Nodup) ∧
    managerStop "ENTRADA" (run ["SALIDA"]
        [.alert "SALIDA" ⟨0, true, true, true, "t0"⟩]) =
      (false, run ["SALIDA"] [.alert "SALIDA" ⟨0, true, true, true, "t0"⟩]) ∧
    managerStop "SALIDA" (managerStop "SALIDA" (run ["SALIDA"]
        [.alert "SALIDA" ⟨0, true, true, true, "t0"⟩])).2 =
      (false, (managerStop "SALIDA" (run ["SALIDA"]
        [.alert "SALIDA" ⟨0, true, true, true, "t0"⟩])).2) :=
  ⟨⟨by decide, by decide⟩,
    c10_stop_without_writer_noop.1 _ _ (by decide),
    c10_stop_without_writer_noop.2 _ _ (by decide)⟩

/-- C4 counterexample.  An Alert for ENTRADA whose camera opens but
whose initial frame read fails registers no session — yet the failed
start is not free of orphaned registry entries: the zone's capture
handle stays behind in active_captures (the early return at lines 30-33
of camera_recorder.py releases the capture but never deletes the entry
added at line 27). -/
theorem c4_counterexample :
    (run ["ENTRADA"]
        [.alert "ENTRADA" ⟨0, true, false, true, "t0"⟩]).writers = [] ∧
    aliveR "ENTRADA" (run ["ENTRADA"]
        [.alert "ENTRADA" ⟨0, true, false, true, "t0"⟩]) = false ∧
    (run ["ENTRADA"]
        [.alert "ENTRADA" ⟨0, true, false, true, "t0"⟩]).activeCaptures
      = ["ENTRADA"] := by
  refine ⟨by decide, by decide, by decide⟩

/-- C4 as amended.  Start failure registers no session: whenever the
camera open, the initial frame read or the writer creation fails, no
writer is registered for the zone, the zone reports not recording, the
session history is unchanged, and the failure is an ordinary return
(the step function is total) — but on any failure after a successful
camera open the zone's capture-handle entry is left in active_captures
until the next global stop. -/
theorem c4_amended_no_session_on_failure (zones : List String)
    (s : SysState) (z : String) (env : AlertEnv) (hz : z ∈ zones)
    (hidle : aliveR z s = false) (hw : z ∉ s.writers)
    (hfail : env.camOk = false ∨ env.frameOk = false ∨ env.writerOk = false) :
    z ∉ (step zones s (.alert z env)).writers ∧
    aliveR z (step zones s (.alert z env)) = false ∧
    (step zones s (.alert z env)).history = s.history ∧
    (env.camOk = true → z ∈ (step zones s (.alert z env)).activeCaptures) := by
  obtain ⟨t, cOk, fOk, wOk, ts⟩ := env
  have hidle1 : aliveR z { s with lastAttempt := aSet s.lastAttempt z t }
      = false := hidle
  cases cOk with
  | false =>
    have hstep : step zones s (.alert z ⟨t, false, fOk, wOk, ts⟩) =
        { s with lastAttempt := aSet s.lastAttempt z t,
                 shouldStop := aSet s.shouldStop z false,
                 captureThreads := aSet s.captureThreads z false } := by
      simp [step, hz, recorderStart, hidle1, captureBody]
    rw [hstep]
    exact ⟨hw, by simp [aliveR, aGet_aSet_self], rfl, by simp⟩
  | true =>
    cases fOk with
    | false =>
      have hstep : step zones s (.alert z ⟨t, true, false, wOk, ts⟩) =
          { s with lastAttempt := aSet s.lastAttempt z t,
                   shouldStop := aSet s.shouldStop z false,
                   activeCaptures := addOnce z s.activeCaptures,
                   captureThreads := aSet s.captureThreads z false } := by
        simp [step, hz, recorderStart, hidle1, captureBody]
      rw [hstep]
      exact ⟨hw, by simp [aliveR, aGet_aSet_self], rfl,
        fun _ => mem_addOnce_self z s.activeCaptures⟩
    | true =>
      have hwOk : wOk = false := by
        rcases hfail with h | h | h
        · exact absurd h (by simp)
        · exact absurd h (by simp)
        · exact h
      subst hwOk
      by_cases hcfg : aGet s.config z = some false
      · have hstep : step zones s (.alert z ⟨t, true, true, false, ts⟩) =
            { s with lastAttempt := aSet s.lastAttempt z t,
                     shouldStop := aSet s.shouldStop z false,
                     activeCaptures := addOnce z s.activeCaptures,
                     captureThreads := aSet s.captureThreads z false } := by
          simp [step, hz, recorderStart, hidle1, captureBody, managerStart,
            hw, hcfg]
        rw [hstep]
        exact ⟨hw, by simp [aliveR, aGet_aSet_self], rfl,
          fun _ => mem_addOnce_self z s.activeCaptures⟩
      · have hstep : step zones s (.alert z ⟨t, true, true, false, ts⟩) =
            { s with lastAttempt := aSet s.lastAttempt z t,
                     shouldStop := aSet s.shouldStop z false,
                     activeCaptures := addOnce z s.activeCaptures,
                     captureThreads := aSet s.captureThreads z false } := by
          simp [step, hz, recorderStart, hidle1, captureBody, managerStart,
            hw, hcfg]
        rw [hstep]
        exact ⟨hw, by simp [aliveR, aGet_aSet_self], rfl,
          fun _ => mem_addOnce_self z s.activeCaptures⟩

/-- Witness for C4 as amended at the frame-read failure input. -/
theorem c4_amended_witness :
    ("ENTRADA" ∈ ["ENTRADA"] ∧ aliveR "ENTRADA" initState = false ∧
      "ENTRADA" ∉ initState.writers) ∧
    "ENTRADA" ∉ (step ["ENTRADA"] initState
        (.alert "ENTRADA" ⟨0, true, false, true, "t0"⟩)).writers ∧
    aliveR "ENTRADA" (step ["ENTRADA"] initState
        (.alert "ENTRADA" ⟨0, true, false, true, "t0"⟩)) = false ∧
    (true = true → "ENTRADA" ∈ (step ["ENTRADA"] initState
        (.alert "ENTRADA" ⟨0, true, false, true, "t0"⟩)).activeCaptures) :=
  ⟨⟨by decide, by decide, by decide⟩,
    (c4_amended_no_session_on_failure ["ENTRADA"] initState "ENTRADA"
      ⟨0, true, false, true, "t0"⟩ (by decide) (by decide) (by decide)
      (Or.inr (Or.inl rfl))).1,
    (c4_amended_no_session_on_failure ["ENTRADA"] initState "ENTRADA"
      ⟨0, true, false, true, "t0"⟩ (by decide) (by decide) (by decide)
      (Or.inr (Or.inl rfl))).2.1,
    (c4_amended_no_session_on_failure ["ENTRADA"] initState "ENTRADA"
      ⟨0, true, false, true, "t0"⟩ (by decide) (by decide) (by decide)
      (Or.inr (Or.inl rfl))).2.2.2⟩

/-- C5.  Stop escalation of VideoDeviceRecorder.stop_recording: for an
active session the sentinel is written first and the process waited up
to 10 seconds; a process that exits then yields True with the state
cleared; a process that ignores the sentinel is logged as degraded,
terminated and waited a further 5 seconds, and when it exits then the
call also returns True with the state cleared — in neither case is
anything raised. -/
theorem c5_stop_escalation :
    (∀ (st : VState) (p : ProcB), st.recFlag = true → st.proc = some p →
      p.exitsOnQ = true →
      vStop st = (.returned true, ⟨false, none⟩,
        [.sendSentinel, .waitSecs 10, .logStopEvent])) ∧
    (∀ (st : VState) (p : ProcB), st.recFlag = true → st.proc = some p →
      p.exitsOnQ = false → p.exitsOnTerm = true →
      vStop st = (.returned true, ⟨false, none⟩,
        [.sendSentinel, .waitSecs 10, .warnForce, .termProc, .waitSecs 5,
         .logStopEvent])) := by
  constructor
  · intro st p hr hp hq
    obtain ⟨r, pr⟩ := st
    cases hp
    simp_all [vStop]
  · intro st p hr hp hq ht
    obtain ⟨r, pr⟩ := st
    cases hp
    simp_all [vStop]

/-- Witness for C5 on a graceful and a sentinel-ignoring process. -/
theorem c5_witness :
    ((VState.mk true (some ⟨true, true⟩)).recFlag = true ∧
      (VState.mk true (some ⟨false, true⟩)).recFlag = true) ∧
    vStop ⟨true, some ⟨true, true⟩⟩ = (.returned true, ⟨false, none⟩,
      [.sendSentinel, .waitSecs 10, .logStopEvent]) ∧
    vStop ⟨true, some ⟨false, true⟩⟩ = (.returned true, ⟨false, none⟩,
      [.sendSentinel, .waitSecs 10, .warnForce, .termProc, .waitSecs 5,
       .logStopEvent]) :=
  ⟨⟨rfl, rfl⟩,
    c5_stop_escalation.1 ⟨true, some ⟨true, true⟩⟩ ⟨true, true⟩ rfl rfl rfl,
    c5_stop_escalation.2 ⟨true, some ⟨false, true⟩⟩ ⟨false, true⟩ rfl rfl rfl
      rfl⟩

lemma classify_alertEv_iff (line : String) (z : String) :
    classify line = .alertEv z ↔
      (strOccurs "ALERTA:" line = true ∧
        ((z = "ENTRADA" ∧ strOccurs "ENTRADA" (strUpper line) = true) ∨
         (z = "SALIDA" ∧ strOccurs "ENTRADA" (strUpper line) = false ∧
           strOccurs "SALIDA" (strUpper line) = true) ∨
         (z = "ESTACIONAMIENTO" ∧ strOccurs "ENTRADA" (strUpper line) = false ∧
           strOccurs "SALIDA" (strUpper line) = false ∧
           strOccurs "ESTACIONAMIENTO" (strUpper line) = true) ∨
         (z = "BODEGA" ∧ strOccurs "ENTRADA" (strUpper line) = false ∧
           strOccurs "SALIDA" (strUpper line) = false ∧
           strOccurs "ESTACIONAMIENTO" (strUpper line) = false ∧
           strOccurs "BODEGA" (strUpper line) = true))) := by
  cases hA : strOccurs "ALERTA:" line with
  | false =>
    simp only [classify, hA, Bool.false_eq_true, if_false]
    constructor
    · intro h
      split at h <;> simp_all
    · rintro ⟨h, -⟩
      simp at h
  | true =>
    cases hE : strOccurs "ENTRADA" (strUpper line) with
    | true =>
      simp [classify, parse_alert_message, ZONES, hA, hE, List.find?]
      try tauto
    | false =>
      cases hS : strOccurs "SALIDA" (strUpper line) with
      | true =>
        simp [classify, parse_alert_message, ZONES, hA, hE, hS, List.find?]
        try tauto
      | false =>
        cases hT : strOccurs "ESTACIONAMIENTO" (strUpper line) with
        | true =>
          simp [classify, parse_alert_message, ZONES, hA, hE, hS, hT,
            List.find?]
          try tauto
        | false =>
          cases hB : strOccurs "BODEGA" (strUpper line) with
          | true =>
            simp [classify, parse_alert_message, ZONES, hA, hE, hS, hT, hB,
              List.find?]
            try tauto
          | false =>
            simp [classify, parse_alert_message, ZONES, hA, hE, hS, hT, hB,
              List.find?]
            try tauto

lemma classify_deactivateEv_iff (line : String) :
    classify line = .deactivateEv ↔
      (strOccurs "ALERTA:" line = false ∧
        (strOccurs "alarmaActiva=0" line = true ∨
          strOccurs "DESACTIVADO" line = true)) := by
  cases hA : strOccurs "ALERTA:" line with
  | true =>
    simp only [classify, hA, if_true]
    constructor
    · intro h
      split at h <;> simp_all
    · rintro ⟨h, -⟩
      simp at h
  | false =>
    simp only [classify, hA, Bool.false_eq_true, if_false]
    by_cases hD : strOccurs "alarmaActiva=0" line = true ∨
        strOccurs "DESACTIVADO" line = true
    · simp [hD]
    · simp [hD]

/-- C6 counterexample.  The classifier does not require exactly one zone
keyword, and an "ALERTA:" line is never classified Deactivate: the line
"ALERTA: ENTRADA SALIDA" contains two zone keywords yet is classified
Alert(ENTRADA), and the line "ALERTA: DESACTIVADO" contains the
deactivation marker yet is classified Unknown, not Deactivate. -/
theorem c6_counterexample :
    classify "ALERTA: ENTRADA SALIDA" = SEvent.alertEv "ENTRADA" ∧
    (ZONES.filter
      (fun z => strOccurs z (strUpper "ALERTA: ENTRADA SALIDA"))).length = 2 ∧
    strOccurs "DESACTIVADO" "ALERTA: DESACTIVADO" = true ∧
    classify "ALERTA: DESACTIVADO" = SEvent.unknownEv := by
  refine ⟨by decide, by decide, by decide, by decide⟩

/-- C6 as amended.  A line is classified Alert(z) iff it contains the
"ALERTA:" marker and at least one zone keyword in its uppercased form, z
being the first of ENTRADA, SALIDA, ESTACIONAMIENTO, BODEGA occurring;
it is classified Deactivate iff it does not contain "ALERTA:" and
contains "alarmaActiva=0" or "DESACTIVADO"; the malformed line
"garbage!!" is classified Unknown, and an Unknown line changes nothing
in the orchestrator state. -/
theorem c6_amended_classification (line : String) (z : String) :
    (classify line = .alertEv z ↔
      (strOccurs "ALERTA:" line = true ∧
        ((z = "ENTRADA" ∧ strOccurs "ENTRADA" (strUpper line) = true) ∨
         (z = "SALIDA" ∧ strOccurs "ENTRADA" (strUpper line) = false ∧
           strOccurs "SALIDA" (strUpper line) = true) ∨
         (z = "ESTACIONAMIENTO" ∧ strOccurs "ENTRADA" (strUpper line) = false ∧
           strOccurs "SALIDA" (strUpper line) = false ∧
           strOccurs "ESTACIONAMIENTO" (strUpper line) = true) ∨
         (z = "BODEGA" ∧ strOccurs "ENTRADA" (strUpper line) = false ∧
           strOccurs "SALIDA" (strUpper line) = false ∧
           strOccurs "ESTACIONAMIENTO" (strUpper line) = false ∧
           strOccurs "BODEGA" (strUpper line) = true)))) ∧
    (classify line = .deactivateEv ↔
      (strOccurs "ALERTA:" line = false ∧
        (strOccurs "alarmaActiva=0" line = true ∨
          strOccurs "DESACTIVADO" line = true))) ∧
    classify "garbage!!" = .unknownEv ∧
    (∀ (zones : List String) (env : AlertEnv) (s : SysState),
      dispatchEvent zones env s .unknownEv = s) :=
  ⟨classify_alertEv_iff line z, classify_deactivateEv_iff line,
    by decide, fun _ _ _ => rfl⟩

/-- C7 counterexample.  Two distinct sessions can share an output path:
starting ENTRADA, deactivating, and restarting ENTRADA within the same
second (identical strftime second-resolution timestamp) yields two
session-history entries whose derived file names are identical. -/
theorem c7_counterexample :
    (run ["ENTRADA"]
        [.alert "ENTRADA" ⟨0, true, true, true, "20250101_120000"⟩,
         .deactivate,
         .alert "ENTRADA" ⟨1, true, true, true, "20250101_120000"⟩]).history
      = [("ENTRADA", "20250101_120000"), ("ENTRADA", "20250101_120000")] ∧
    fileNameOf "ENTRADA" "20250101_120000"
      = fileNameOf "ENTRADA" "20250101_120000" ∧
    fileNameOf "ENTRADA" "20250101_120000" = "ENTRADA_20250101_120000.mp4" := by
  refine ⟨by decide, rfl, by decide⟩

lemma safeName_zone {z : String} (h : z ∈ ZONES) : safeName z = z := by
  simp only [ZONES, List.mem_cons, List.mem_singleton, List.not_mem_nil,
    or_false] at h
  rcases h with h | h | h | h <;> subst h <;> decide

/-- C7 as amended.  The output file name is deterministic in the zone
name and the second-resolution start timestamp, and injective on them:
sessions for different zones, or started in different seconds, get
different paths (only a same-zone restart within one second collides,
as the counterexample shows). -/
theorem c7_amended_path_injective (z1 z2 ts1 ts2 : String)
    (h1 : z1 ∈ ZONES) (h2 : z2 ∈ ZONES)
    (hl1 : ts1.length = 15) (hl2 : ts2.length = 15)
    (heq : fileNameOf z1 ts1 = fileNameOf z2 ts2) :
    z1 = z2 ∧ ts1 = ts2 := by
  have hs1 := safeName_zone h1
  have hs2 := safeName_zone h2
  have hd : z1.data ++ ('_' :: (ts1.data ++ ".mp4".data))
      = z2.data ++ ('_' :: (ts2.data ++ ".mp4".data)) := by
    have h0 := congrArg String.data heq
    simpa [fileNameOf, hs1, hs2, String.data_append, List.append_assoc]
      using h0
  have hm1 : ts1.data.length = 15 := hl1
  have hm2 : ts2.data.length = 15 := hl2
  have hlen : z1.data.length = z2.data.length := by
    have h0 := congrArg List.length hd
    simp only [List.length_append, List.length_cons] at h0
    omega
  obtain ⟨hz, hrest⟩ := List.append_inj hd hlen
  have htail : ts1.data ++ ".mp4".data = ts2.data ++ ".mp4".data := by
    injection hrest
  have hts : ts1.data = ts2.data :=
    List.append_inj_left htail (by omega)
  exact ⟨String.ext hz, String.ext hts⟩

/-- Witness for C7 as amended at concrete zone and timestamp values. -/
theorem c7_amended_witness :
    ("ENTRADA" ∈ ZONES ∧ "SALIDA" ∈ ZONES ∧
      ("20250101_120000" : String).length = 15 ∧
      fileNameOf "ENTRADA" "20250101_120000"
        = fileNameOf "ENTRADA" "20250101_120000") ∧
    (("ENTRADA" : String) = "ENTRADA" ∧
      ("20250101_120000" : String) = "20250101_120000") :=
  ⟨⟨by decide, by decide, by decide, rfl⟩,
    c7_amended_path_injective "ENTRADA" "ENTRADA" "20250101_120000"
      "20250101_120000" (by decide) (by decide) (by decide) (by decide) rfl⟩

/-- C8 counterexample.  A serial read error does not trigger any
reconnection and no TransportError reaches the caller: the listening
loop stops at the first serial error — a line available right after it
is never processed — and ends by returning normally (serialBreak), not
by reporting a transport error. -/
theorem c8_counterexample :
    listenModel [.serialErr, .line "ALERTA: ENTRADA"] = ([], .serialBreak) ∧
    Outcome.serialBreak ≠ Outcome.raisedTransport := by
  refine ⟨by decide, by decide⟩

/-- C8 as amended.  On the first serial error the ingestion loop
terminates immediately and normally: exactly the events of the prefix
before the error are delivered, nothing after it is read, no reconnect
is attempted and nothing is raised; non-serial errors inside the loop
body are caught and the loop continues. -/
theorem c8_amended_serial_error_ends_loop (pre post : List RxItem)
    (h : ∀ x ∈ pre, x ≠ RxItem.serialErr) :
    listenModel (pre ++ RxItem.serialErr :: post)
      = ((listenModel pre).1, Outcome.serialBreak) := by
  induction pre with
  | nil => rfl
  | cons x t ih =>
    have hx : x ≠ RxItem.serialErr := h x (List.mem_cons_self x t)
    have ht : ∀ y ∈ t, y ≠ RxItem.serialErr :=
      fun y hy => h y (List.mem_cons_of_mem x hy)
    cases x with
    | line l =>
      simp only [List.cons_append, listenModel]
      cases classify l <;> simp [ih ht]
    | serialErr => exact absurd rfl hx
    | otherErr =>
      simpa only [List.cons_append, listenModel] using ih ht

/-- Witness for C8 as amended: one alert line, then the serial error,
then an unread deactivation line. -/
theorem c8_amended_witness :
    (∀ x ∈ ([.line "ALERTA: ENTRADA"] : List RxItem),
      x ≠ RxItem.serialErr) ∧
    listenModel ([.line "ALERTA: ENTRADA"] ++
        RxItem.serialErr :: [.line "DESACTIVADO"])
      = ((listenModel [.line "ALERTA: ENTRADA"]).1, Outcome.serialBreak) :=
  ⟨by decide,
    c8_amended_serial_error_ends_loop [.line "ALERTA: ENTRADA"]
      [.line "DESACTIVADO"] (by decide)⟩

/-- C9.  The Deactivate-versus-in-flight-start race is lost by the
code: an Alert for ENTRADA spawns a capture thread whose camera open
outlasts the 2-second join timeout; the Deactivate then completes,
clearing every registry including the thread's stop flag; the thread
subsequently opens the camera, reads its frame, registers its writer
and parks in the polling loop, where the cleared flag reads False — so
a registered writer and a live capture thread survive the Deactivate,
and a further poll iteration changes nothing (the session keeps
running). -/
theorem c9_deactivate_race_lost :
    (cDeactivate (cAlert "ENTRADA" true true true cInit)).writers = [] ∧
    (cDeactivate (cAlert "ENTRADA" true true true cInit)).captureThreads
      = [] ∧
    (cDeactivate (cAlert "ENTRADA" true true true cInit)).shouldStop = [] ∧
    (cTaskStep 0 (cTaskStep 0 (cTaskStep 0 (cDeactivate
        (cAlert "ENTRADA" true true true cInit))))).writers = ["ENTRADA"] ∧
    ((cTaskStep 0 (cTaskStep 0 (cTaskStep 0 (cDeactivate
        (cAlert "ENTRADA" true true true cInit))))).tasks.get? 0).map
        (fun tk => tk.phase) = some Phase.polling ∧
    cTaskStep 0 (cTaskStep 0 (cTaskStep 0 (cTaskStep 0 (cDeactivate
        (cAlert "ENTRADA" true true true cInit))))) =
      cTaskStep 0 (cTaskStep 0 (cTaskStep 0 (cDeactivate
        (cAlert "ENTRADA" true true true cInit)))) := by
  refine ⟨by decide, by decide, by decide, by decide, by decide, by decide⟩

end DeviceRecording
